import Mathlib

/-!
Verification of the region-aggregation pipeline in `make_bea_regions.py`.

The embedding models a `GeoDataFrame` as a `Frame G`: a list of column
names, a list of rows (each an association list of nullable string
attributes plus a geometry of abstract type `G`), and an optional
coordinate reference system code.  Geometric union and coordinate
reprojection are opaque parameters (`unionG`, `proj`), since the pipeline
only composes them and never inspects geometry values.

`build_bea_regions` mirrors the source line by line:
  - the `STUSPS` column check (KeyError),
  - the territory filter (`~states.STUSPS.isin(TERRITORIES)`),
  - the region assignment (`states.STUSPS.map(BEA_MAP)`, unmapped = NaN),
  - the completeness check (ValueError listing all unmapped codes),
  - `dissolve(by=bea_region, as_index=False, aggfunc=first)`
    (pandas groupby: NaN keys dropped, group keys sorted, `first`
    takes the first non-null value per column),
  - `to_crs(4326)` (fails when the source CRS is undeclared),
  - the final column selection `[[bea_region, geometry]]`.

`build_bea_regions_store` runs the same computation over an explicit
store of frames, making the `.copy()` on the filtered frame and the
in-place column assignment on that copy observable.
-/

/-- Code-point lexicographic comparison of character lists, matching how
pandas sorts group keys (Python string `<` on code points). -/
def charListLe : List Char → List Char → Bool
  | [], _ => true
  | _ :: _, [] => false
  | a :: as, b :: bs =>
    if a.toNat < b.toNat then true
    else if b.toNat < a.toNat then false
    else charListLe as bs

/-- Code-point lexicographic order on strings. -/
def strLe (a b : String) : Bool := charListLe a.data b.data

/-- Attributes of one row: nullable string values keyed by column name
(`none` models a pandas NaN cell). -/
abbrev Attrs := List (String × Option String)

/-- First value bound to column `k`, or `none` when the column is absent. -/
def lookupA (k : String) : Attrs → Option (Option String)
  | [] => none
  | (c, v) :: rest => if c = k then some v else lookupA k rest

/-- Overwrite column `k` with value `v` when present, append it otherwise
(pandas column assignment semantics). -/
def setA (k : String) (v : Option String) : Attrs → Attrs
  | [] => [(k, v)]
  | (c, w) :: rest => if c = k then (k, v) :: rest else (c, w) :: setA k v rest

/-- One row of a frame: named nullable attributes plus a geometry. -/
structure Row (G : Type) where
  attrs : Attrs
  geom : G
deriving DecidableEq

/-- A GeoDataFrame: non-geometry column names, rows, and the optional
coordinate reference system the geometries are expressed in. -/
structure Frame (G : Type) where
  cols : List String
  rows : List (Row G)
  crs : Option Nat
deriving DecidableEq

/-- The frame with no columns, rows, or declared reference system. -/
def emptyFrame {G : Type} : Frame G := { cols := [], rows := [], crs := none }

/-- State postal code → BEA region label, as listed in the source. -/
def BEA_MAP : List (String × String) := [
  ("CT", "New England"), ("ME", "New England"), ("MA", "New England"),
  ("NH", "New England"), ("RI", "New England"), ("VT", "New England"),
  ("DE", "Mideast"), ("DC", "Mideast"), ("MD", "Mideast"),
  ("NJ", "Mideast"), ("NY", "Mideast"), ("PA", "Mideast"),
  ("IL", "Great Lakes"), ("IN", "Great Lakes"), ("MI", "Great Lakes"),
  ("OH", "Great Lakes"), ("WI", "Great Lakes"),
  ("IA", "Plains"), ("KS", "Plains"), ("MN", "Plains"), ("MO", "Plains"),
  ("NE", "Plains"), ("ND", "Plains"), ("SD", "Plains"),
  ("AL", "Southeast"), ("AR", "Southeast"), ("FL", "Southeast"),
  ("GA", "Southeast"), ("KY", "Southeast"), ("LA", "Southeast"),
  ("MS", "Southeast"), ("NC", "Southeast"), ("SC", "Southeast"),
  ("TN", "Southeast"), ("VA", "Southeast"), ("WV", "Southeast"),
  ("AZ", "Southwest"), ("NM", "Southwest"), ("OK", "Southwest"),
  ("TX", "Southwest"),
  ("CO", "Rocky Mountain"), ("ID", "Rocky Mountain"), ("MT", "Rocky Mountain"),
  ("UT", "Rocky Mountain"), ("WY", "Rocky Mountain"),
  ("AK", "Far West"), ("CA", "Far West"), ("HI", "Far West"),
  ("NV", "Far West"), ("OR", "Far West"), ("WA", "Far West")]

/-- Postal codes excluded before region assignment. -/
def TERRITORIES : List String := ["PR", "GU", "VI", "MP", "AS"]

/-- Dictionary lookup in an association list of plain strings
(`Series.map` of a dict: missing key → NaN). -/
def mapLookup (k : String) : List (String × String) → Option String
  | [] => none
  | (c, v) :: rest => if c = k then some v else mapLookup k rest

/-- Value of the STUSPS cell of a row (`none` when the column is absent
or the cell is NaN). -/
def rowStusps {G : Type} (r : Row G) : Option String :=
  (lookupA "STUSPS" r.attrs).getD none

/-- Value of the bea_region cell of a row. -/
def rowRegion {G : Type} (r : Row G) : Option String :=
  (lookupA "bea_region" r.attrs).getD none

/-- Row predicate of line 56: `~states.STUSPS.isin(TERRITORIES)`.
A NaN identifier is not `in` the set, so such rows are kept. -/
def keepRow {G : Type} (r : Row G) : Bool :=
  match rowStusps r with
  | none => true
  | some s => ! TERRITORIES.contains s

/-- Line 56: drop rows whose identifier is a territory code. -/
def excludeTerritories {G : Type} (f : Frame G) : Frame G :=
  { f with rows := f.rows.filter keepRow }

/-- The row-level effect of line 57: store the mapped region of the
STUSPS value in the bea_region cell. -/
def assignRow {G : Type} (r : Row G) : Row G :=
  { r with attrs := setA "bea_region" ((rowStusps r).bind (fun s => mapLookup s BEA_MAP)) r.attrs }

/-- Line 57: add the bea_region column, mapping each STUSPS value through
`BEA_MAP` (unmapped or NaN identifiers give a NaN region). -/
def assignRegion {G : Type} (f : Frame G) : Frame G :=
  { cols := if f.cols.contains "bea_region" then f.cols else f.cols ++ ["bea_region"],
    rows := f.rows.map assignRow,
    crs := f.crs }

/-- Line 58: `states.bea_region.isna().sum()`. -/
def countMissing {G : Type} (f : Frame G) : Nat :=
  (f.rows.filter (fun r => (rowRegion r).isNone)).length

/-- Line 60: STUSPS values of the rows whose region is NaN, in row order. -/
def missingIds {G : Type} (f : Frame G) : List (Option String) :=
  (f.rows.filter (fun r => (rowRegion r).isNone)).map rowStusps

/-- Rows of the group with region label `l`. -/
def groupRows {G : Type} (f : Frame G) (l : String) : List (Row G) :=
  f.rows.filter (fun r => decide (rowRegion r = some l))

/-- Distinct region labels present, sorted as pandas groupby sorts its
group keys (NaN keys dropped). -/
def regionLabels {G : Type} (f : Frame G) : List String :=
  List.insertionSort (fun a b => strLe a b = true) (f.rows.filterMap rowRegion).dedup

/-- The `first` aggregation of pandas groupby: first non-null value of
column `c` among the group rows. -/
def firstAgg {G : Type} (grp : List (Row G)) (c : String) : Option String :=
  (grp.filterMap (fun r => (lookupA c r.attrs).getD none)).head?

/-- Line 63: `dissolve(by=bea_region, as_index=False, aggfunc=first)` —
one row per distinct label, geometry the union of the group geometries,
other columns collapsed by `first`. -/
def dissolveByRegion {G : Type} (unionG : List G → G) (f : Frame G) : Frame G :=
  let dataCols := f.cols.filter (fun c => decide (c ≠ "bea_region"))
  { cols := "bea_region" :: dataCols,
    rows := (regionLabels f).map (fun l =>
      { attrs := ("bea_region", some l) :: dataCols.map (fun c => (c, firstAgg (groupRows f l) c)),
        geom := unionG ((groupRows f l).map Row.geom) }),
    crs := f.crs }

/-- Failures of the pipeline: the KeyError of line 54, the ValueError of
line 61 (carrying every unmapped identifier), and the error `to_crs`
raises when the source frame declares no reference system. -/
inductive BuildError where
  | keyError (msg : String)
  | valueError (bad : List (Option String))
  | crsError
deriving DecidableEq

/-- Line 64: `to_crs(t)` — reproject every geometry from the declared
source system into `t`; fails when no source system is declared. -/
def toCrs {G : Type} (proj : Nat → Nat → G → G) (t : Nat) (f : Frame G) :
    Except BuildError (Frame G) :=
  match f.crs with
  | none => .error .crsError
  | some c => .ok { f with crs := some t,
                           rows := f.rows.map (fun r => { r with geom := proj c t r.geom }) }

/-- Line 65: keep only the bea_region column and the geometry. -/
def selectRegionGeometry {G : Type} (f : Frame G) : Frame G :=
  { cols := ["bea_region"],
    rows := f.rows.map (fun r =>
      { attrs := [("bea_region", (lookupA "bea_region" r.attrs).getD none)], geom := r.geom }),
    crs := f.crs }

/-- Lines 52-65: the whole `build_bea_regions` pipeline. -/
def build_bea_regions {G : Type} (proj : Nat → Nat → G → G) (unionG : List G → G)
    (states : Frame G) : Except BuildError (Frame G) :=
  if states.cols.contains "STUSPS" then
    let kept := excludeTerritories states
    let labeled := assignRegion kept
    if countMissing labeled ≠ 0 then
      .error (.valueError (missingIds labeled))
    else
      match toCrs proj 4326 (dissolveByRegion unionG labeled) with
      | .error e => .error e
      | .ok bea => .ok (selectRegionGeometry bea)
  else
    .error (.keyError "Expected STUSPS column in states layer (two-letter postal codes).")

/-- The filtered-then-labeled frame the pipeline dissolves. -/
def labeledOf {G : Type} (states : Frame G) : Frame G :=
  assignRegion (excludeTerritories states)

/-- Region labels the classification stage assigns to the non-excluded
rows, in row order, stated directly on the input frame. -/
def classifiedLabels {G : Type} (states : Frame G) : List String :=
  (excludeTerritories states).rows.filterMap
    (fun r => (rowStusps r).bind (fun s => mapLookup s BEA_MAP))

/-- `build_bea_regions` over an explicit store of frames.  The input
frame lives at index `i`; line 56 allocates a fresh copy of the filtered
frame, and line 57 mutates that copy in place.  Returns the final store
together with the result. -/
def build_bea_regions_store {G : Type} (proj : Nat → Nat → G → G) (unionG : List G → G)
    (σ : List (Frame G)) (i : Nat) : List (Frame G) × Except BuildError (Frame G) :=
  let states := (σ[i]?).getD emptyFrame
  if states.cols.contains "STUSPS" then
    let j := σ.length
    let σ1 := σ ++ [excludeTerritories states]
    let σ2 := σ1.set j (assignRegion ((σ1[j]?).getD emptyFrame))
    let labeled := (σ2[j]?).getD emptyFrame
    if countMissing labeled ≠ 0 then
      (σ2, .error (.valueError (missingIds labeled)))
    else
      match toCrs proj 4326 (dissolveByRegion unionG labeled) with
      | .error e => (σ2, .error e)
      | .ok bea => (σ2, .ok (selectRegionGeometry bea))
  else
    (σ, .error (.keyError "Expected STUSPS column in states layer (two-letter postal codes)."))

instance {ε α : Type} [DecidableEq ε] [DecidableEq α] : DecidableEq (Except ε α) := fun a b =>
  match a, b with
  | .ok x, .ok y => if h : x = y then .isTrue (by rw [h]) else .isFalse (by simp [h])
  | .error e, .error f => if h : e = f then .isTrue (by rw [h]) else .isFalse (by simp [h])
  | .ok _, .error _ => .isFalse (by simp)
  | .error _, .ok _ => .isFalse (by simp)

/-- A concrete reprojection that leaves geometries unchanged, used to
instantiate the abstract transform on witnesses. -/
def idProj : Nat → Nat → List Nat → List Nat := fun _ _ g => g

/-- A concrete union on list geometries: concatenation of the parts, so
the union of no parts or of empty parts is the empty geometry `[]`. -/
def listUnion : List (List Nat) → List Nat := fun gs => gs.foldr (fun a b => a ++ b) []

/-- A three-state example layer: California, Massachusetts, Puerto Rico. -/
def exFrame : Frame (List Nat) :=
  { cols := ["NAME", "STUSPS"],
    rows := [
      { attrs := [("NAME", some "California"), ("STUSPS", some "CA")], geom := [1, 2] },
      { attrs := [("NAME", some "Massachusetts"), ("STUSPS", some "MA")], geom := [3] },
      { attrs := [("NAME", some "Puerto Rico"), ("STUSPS", some "PR")], geom := [4] } ],
    crs := some 4269 }

/-- The regional output the pipeline produces from `exFrame`. -/
def exOut : Frame (List Nat) :=
  { cols := ["bea_region"],
    rows := [
      { attrs := [("bea_region", some "Far West")], geom := [1, 2] },
      { attrs := [("bea_region", some "New England")], geom := [3] } ],
    crs := some 4326 }

/-- `exFrame` with an extra row whose postal code is not in `BEA_MAP`. -/
def exFrameUnmapped : Frame (List Nat) :=
  { exFrame with rows := exFrame.rows ++
      [{ attrs := [("NAME", some "Atlantis"), ("STUSPS", some "XX")], geom := [9] }] }

/-- A one-row layer whose only feature carries the empty geometry `[]`. -/
def exFrameEmptyGeom : Frame (List Nat) :=
  { cols := ["STUSPS"],
    rows := [{ attrs := [("STUSPS", some "CA")], geom := [] }],
    crs := some 5070 }

/-- A layer whose rows are exactly the 51 mapped postal codes. -/
def allStatesFrame : Frame (List Nat) :=
  { cols := ["STUSPS"],
    rows := (BEA_MAP.map Prod.fst).map (fun k => { attrs := [("STUSPS", some k)], geom := [0] }),
    crs := some 4269 }

/-- A layer containing only an excluded territory row, so it is empty
after the exclusion filter. -/
def exFrameTerritoryOnly : Frame (List Nat) :=
  { cols := ["STUSPS"],
    rows := [{ attrs := [("STUSPS", some "PR")], geom := [7] }],
    crs := some 4269 }

/-- A layer without a STUSPS column. -/
def exFrameNoStusps : Frame (List Nat) :=
  { cols := ["NAME"],
    rows := [{ attrs := [("NAME", some "Somewhere")], geom := [5] }],
    crs := some 4269 }

lemma lookupA_setA_self (k : String) (v : Option String) (l : Attrs) :
    lookupA k (setA k v l) = some v := by
  induction l with
  | nil => simp [setA, lookupA]
  | cons p rest ih =>
    obtain ⟨c, w⟩ := p
    by_cases hc : c = k
    · rw [setA, if_pos hc, lookupA, if_pos rfl]
    · rw [setA, if_neg hc, lookupA, if_neg hc]
      exact ih

lemma lookupA_setA_ne {q k : String} (hq : q ≠ k) (v : Option String) (l : Attrs) :
    lookupA q (setA k v l) = lookupA q l := by
  induction l with
  | nil => simp [setA, lookupA, Ne.symm hq]
  | cons p rest ih =>
    obtain ⟨c, w⟩ := p
    by_cases hc : c = k
    · subst hc
      rw [setA, if_pos rfl, lookupA, if_neg (Ne.symm hq), lookupA, if_neg (Ne.symm hq)]
    · rw [setA, if_neg hc, lookupA, lookupA]
      by_cases hcq : c = q
      · rw [if_pos hcq, if_pos hcq]
      · rw [if_neg hcq, if_neg hcq]
        exact ih

lemma rowRegion_assignRow {G : Type} (r : Row G) :
    rowRegion (assignRow r) = (rowStusps r).bind (fun s => mapLookup s BEA_MAP) := by
  unfold rowRegion assignRow
  rw [lookupA_setA_self]
  rfl

lemma rowStusps_assignRow {G : Type} (r : Row G) :
    rowStusps (assignRow r) = rowStusps r := by
  unfold rowStusps assignRow
  rw [lookupA_setA_ne (by decide)]

lemma labeledOf_rows {G : Type} (states : Frame G) :
    (labeledOf states).rows = ((excludeTerritories states).rows).map assignRow := rfl

lemma labeledOf_crs {G : Type} (states : Frame G) :
    (labeledOf states).crs = states.crs := rfl

lemma dissolve_crs {G : Type} (unionG : List G → G) (f : Frame G) :
    (dissolveByRegion unionG f).crs = f.crs := rfl

lemma filterMap_rowRegion_labeledOf {G : Type} (states : Frame G) :
    (labeledOf states).rows.filterMap rowRegion = classifiedLabels states := by
  rw [labeledOf_rows, List.filterMap_map]
  unfold classifiedLabels
  congr 1
  funext r
  simp only [Function.comp]
  exact rowRegion_assignRow r

lemma countMissing_labeledOf_eq_zero {G : Type} (states : Frame G) :
    countMissing (labeledOf states) = 0 ↔
      ∀ r ∈ (excludeTerritories states).rows,
        ((rowStusps r).bind (fun s => mapLookup s BEA_MAP)).isSome = true := by
  unfold countMissing
  rw [labeledOf_rows, List.filter_map, List.length_map, List.length_eq_zero,
    List.filter_eq_nil_iff]
  constructor
  · intro h r hr
    have h2 := h r hr
    simp only [Function.comp, rowRegion_assignRow] at h2
    cases ho : (rowStusps r).bind (fun s => mapLookup s BEA_MAP) with
    | none => exact absurd (by rw [ho]; rfl) h2
    | some v => rfl
  · intro h r hr
    have h2 := h r hr
    simp only [Function.comp, rowRegion_assignRow]
    cases ho : (rowStusps r).bind (fun s => mapLookup s BEA_MAP) with
    | none => rw [ho] at h2; exact absurd h2 (by decide)
    | some v => simp

lemma regionLabels_nodup {G : Type} (f : Frame G) : (regionLabels f).Nodup := by
  unfold regionLabels
  exact ((List.perm_insertionSort _ _).symm).nodup (List.nodup_dedup _)

lemma mem_regionLabels {G : Type} {l : String} (f : Frame G) :
    l ∈ regionLabels f ↔ l ∈ f.rows.filterMap rowRegion := by
  unfold regionLabels
  rw [List.mem_insertionSort, List.mem_dedup]

lemma length_regionLabels {G : Type} (f : Frame G) :
    (regionLabels f).length = (f.rows.filterMap rowRegion).dedup.length := by
  unfold regionLabels
  exact (List.perm_insertionSort _ _).length_eq

lemma toCrs_ok {G : Type} (proj : Nat → Nat → G → G) (t c : Nat) (f : Frame G)
    (h : f.crs = some c) :
    toCrs proj t f =
      .ok { cols := f.cols,
            rows := f.rows.map (fun r => { r with geom := proj c t r.geom }),
            crs := some t } := by
  unfold toCrs
  rw [h]

lemma labeledOf_eq {G : Type} (states : Frame G) :
    assignRegion (excludeTerritories states) = labeledOf states := rfl

lemma build_bea_regions_ok {G : Type} (proj : Nat → Nat → G → G) (unionG : List G → G)
    (states : Frame G) (c : Nat)
    (hcol : states.cols.contains "STUSPS" = true)
    (hcrs : states.crs = some c)
    (hmiss : countMissing (labeledOf states) = 0) :
    build_bea_regions proj unionG states =
      .ok { cols := ["bea_region"],
            rows := (regionLabels (labeledOf states)).map (fun l =>
              { attrs := [("bea_region", some l)],
                geom := proj c 4326 (unionG ((groupRows (labeledOf states) l).map Row.geom)) }),
            crs := some 4326 } := by
  unfold build_bea_regions
  rw [if_pos hcol]
  simp only [labeledOf_eq]
  rw [if_neg (fun h => h hmiss),
    toCrs_ok proj 4326 c _ (by rw [dissolve_crs, labeledOf_crs, hcrs])]
  simp [selectRegionGeometry, dissolveByRegion, List.map_map, lookupA]

lemma set_concat_length {α : Type} (σ : List α) (x y : α) :
    (σ ++ [x]).set σ.length y = σ ++ [y] := by
  induction σ with
  | nil => rfl
  | cons a rest ih => simp [List.set, ih]

lemma build_store_eq {G : Type} (proj : Nat → Nat → G → G) (unionG : List G → G)
    (σ : List (Frame G)) (i : Nat) :
    build_bea_regions_store proj unionG σ i =
      ((if ((σ[i]?).getD emptyFrame).cols.contains "STUSPS" then
          σ ++ [labeledOf ((σ[i]?).getD emptyFrame)] else σ),
        build_bea_regions proj unionG ((σ[i]?).getD emptyFrame)) := by
  unfold build_bea_regions_store build_bea_regions
  by_cases hcol : ((σ[i]?).getD emptyFrame).cols.contains "STUSPS" = true
  · rw [if_pos hcol, if_pos hcol, if_pos hcol]
    simp only [List.getElem?_concat_length, Option.getD_some, set_concat_length,
      labeledOf_eq]
    by_cases hmiss : countMissing (labeledOf ((σ[i]?).getD emptyFrame)) ≠ 0
    · rw [if_pos hmiss, if_pos hmiss]
    · rw [if_neg hmiss, if_neg hmiss]
      cases htc : toCrs proj 4326
          (dissolveByRegion unionG (labeledOf ((σ[i]?).getD emptyFrame))) with
      | error e => rfl
      | ok bea => rfl
  · rw [if_neg hcol, if_neg hcol, if_neg hcol]

lemma mapLookup_isSome_iff {k : String} {m : List (String × String)} :
    (mapLookup k m).isSome = true ↔ k ∈ m.map Prod.fst := by
  induction m with
  | nil => simp [mapLookup]
  | cons p rest ih =>
    obtain ⟨c, v⟩ := p
    by_cases hc : c = k
    · subst hc
      simp [mapLookup]
    · simp only [mapLookup, if_neg hc, List.map_cons, List.mem_cons]
      rw [ih]
      constructor
      · exact Or.inr
      · rintro (h | h)
        · exact absurd h.symm hc
        · exact h

lemma mapLookup_mem_values {k : String} {v : String} {m : List (String × String)}
    (h : mapLookup k m = some v) : v ∈ m.map Prod.snd := by
  induction m with
  | nil => simp [mapLookup] at h
  | cons p rest ih =>
    obtain ⟨c, w⟩ := p
    by_cases hc : c = k
    · rw [mapLookup, if_pos hc] at h
      simp only [Option.some.injEq] at h
      simp [h]
    · rw [mapLookup, if_neg hc] at h
      simp [ih h]

lemma values_mapLookup {m : List (String × String)} (hnd : (m.map Prod.fst).Nodup)
    {v : String} (hv : v ∈ m.map Prod.snd) :
    ∃ k, k ∈ m.map Prod.fst ∧ mapLookup k m = some v := by
  induction m with
  | nil => simp at hv
  | cons p rest ih =>
    obtain ⟨c, w⟩ := p
    simp only [List.map_cons, List.mem_cons] at hv
    rcases hv with hv | hv
    · exact ⟨c, by simp, by rw [mapLookup, if_pos rfl, hv]⟩
    · simp only [List.map_cons, List.nodup_cons] at hnd
      obtain ⟨k, hk, hlook⟩ := ih hnd.2 hv
      refine ⟨k, by simp [hk], ?_⟩
      rw [mapLookup, if_neg (fun hck => hnd.1 (by rw [hck]; exact hk))]
      exact hlook

lemma rowRegion_regionRow {G : Type} (l : String) (g : G) :
    rowRegion { attrs := [("bea_region", some l)], geom := g } = some l := by
  simp [rowRegion, lookupA]

lemma build_bea_regions_err {G : Type} (proj : Nat → Nat → G → G) (unionG : List G → G)
    (states : Frame G)
    (hcol : states.cols.contains "STUSPS" = true)
    (hmiss : countMissing (labeledOf states) ≠ 0) :
    build_bea_regions proj unionG states =
      .error (.valueError (missingIds (labeledOf states))) := by
  unfold build_bea_regions
  rw [if_pos hcol]
  simp only [labeledOf_eq]
  rw [if_pos hmiss]

lemma missingIds_labeledOf {G : Type} (states : Frame G) :
    missingIds (labeledOf states) =
      ((excludeTerritories states).rows.filter
        (fun r => ((rowStusps r).bind (fun s => mapLookup s BEA_MAP)).isNone)).map rowStusps := by
  unfold missingIds
  rw [labeledOf_rows, List.filter_map, List.map_map]
  have hfun : (rowStusps ∘ assignRow : Row G → Option String) = rowStusps :=
    funext rowStusps_assignRow
  have hpred : ((fun r => (rowRegion r).isNone) ∘ assignRow : Row G → Bool) =
      (fun r => ((rowStusps r).bind (fun s => mapLookup s BEA_MAP)).isNone) := by
    funext r
    simp only [Function.comp]
    rw [rowRegion_assignRow]
  rw [hfun, hpred]

lemma excludeTerritories_idem {G : Type} (f : Frame G) :
    excludeTerritories (excludeTerritories f) = excludeTerritories f := by
  unfold excludeTerritories
  simp [List.filter_filter, Bool.and_self]

lemma filterMap_rowRegion_regionRows {G : Type} (g : String → G) (ls : List String) :
    (ls.map (fun l =>
      ({ attrs := [("bea_region", some l)], geom := g l } : Row G))).filterMap rowRegion = ls := by
  induction ls with
  | nil => rfl
  | cons a rest ih => simp [List.filterMap_cons, rowRegion_regionRow, ih]

/-- Claim C1: when the STUSPS column is present, a source reference
system is declared, and every non-excluded identifier has a BEA_MAP
entry (exhaustive mapping), the pipeline succeeds and its output has
exactly one region row per distinct label present after classification:
the output labels are duplicate-free, a label appears in the output if
and only if classification assigned it to some non-excluded row, and the
number of output rows equals the number of distinct classified labels. -/
theorem c1_one_region_per_label {G : Type} (proj : Nat → Nat → G → G)
    (unionG : List G → G) (states : Frame G) (c : Nat)
    (hcol : states.cols.contains "STUSPS" = true)
    (hcrs : states.crs = some c)
    (hmap : ∀ r ∈ (excludeTerritories states).rows,
      ((rowStusps r).bind (fun s => mapLookup s BEA_MAP)).isSome = true) :
    ∃ out, build_bea_regions proj unionG states = .ok out ∧
      (out.rows.filterMap rowRegion).Nodup ∧
      (∀ l, l ∈ out.rows.filterMap rowRegion ↔ l ∈ classifiedLabels states) ∧
      out.rows.length = (classifiedLabels states).dedup.length := by
  have hmiss := (countMissing_labeledOf_eq_zero states).mpr hmap
  refine ⟨_, build_bea_regions_ok proj unionG states c hcol hcrs hmiss, ?_, ?_, ?_⟩
  · rw [filterMap_rowRegion_regionRows]
    exact regionLabels_nodup _
  · intro l
    rw [filterMap_rowRegion_regionRows, mem_regionLabels, filterMap_rowRegion_labeledOf]
  · rw [List.length_map, length_regionLabels, filterMap_rowRegion_labeledOf]

/-- Claim C2: if some non-excluded row's identifier has no BEA_MAP
entry, the pipeline fails with the incomplete-mapping error
(`BuildError.valueError`, the model of the ValueError of line 61, spec
name MappingIncompleteError) whose payload enumerates the identifiers of
all unmapped non-excluded rows in row order — not just the first — and
no output collection is produced. -/
theorem c2_mapping_incomplete_all_listed {G : Type} (proj : Nat → Nat → G → G)
    (unionG : List G → G) (states : Frame G)
    (hcol : states.cols.contains "STUSPS" = true)
    (hbad : ∃ r ∈ (excludeTerritories states).rows,
      (rowStusps r).bind (fun s => mapLookup s BEA_MAP) = none) :
    build_bea_regions proj unionG states =
      .error (.valueError (((excludeTerritories states).rows.filter
        (fun r => ((rowStusps r).bind (fun s => mapLookup s BEA_MAP)).isNone)).map rowStusps)) := by
  obtain ⟨r0, hr0, hnone⟩ := hbad
  have hmiss : countMissing (labeledOf states) ≠ 0 := by
    intro h0
    have hs := (countMissing_labeledOf_eq_zero states).mp h0 r0 hr0
    rw [hnone] at hs
    exact absurd hs (by decide)
  rw [build_bea_regions_err proj unionG states hcol hmiss, missingIds_labeledOf]

/-- Claim C3: on every successful run the per-group union is applied to
the geometries of the labeled frame, which are still in the source
reference system, and the reprojection `proj c 4326` is applied to the
result of the union afterwards, the same way for every output row; the
whole output carries the single target system EPSG 4326. -/
theorem c3_union_native_then_reproject {G : Type} (proj : Nat → Nat → G → G)
    (unionG : List G → G) (states : Frame G) (c : Nat)
    (hcol : states.cols.contains "STUSPS" = true)
    (hcrs : states.crs = some c)
    (hmap : ∀ r ∈ (excludeTerritories states).rows,
      ((rowStusps r).bind (fun s => mapLookup s BEA_MAP)).isSome = true) :
    ∃ out, build_bea_regions proj unionG states = .ok out ∧
      out.crs = some 4326 ∧
      ∀ r ∈ out.rows, ∃ l, rowRegion r = some l ∧
        r.geom = proj c 4326 (unionG ((groupRows (labeledOf states) l).map Row.geom)) := by
  have hmiss := (countMissing_labeledOf_eq_zero states).mpr hmap
  refine ⟨_, build_bea_regions_ok proj unionG states c hcol hcrs hmiss, rfl, ?_⟩
  intro r hr
  simp only [List.mem_map] at hr
  obtain ⟨l, hl, rfl⟩ := hr
  exact ⟨l, rowRegion_regionRow l _, rfl⟩

/-- Claim C4: rows whose identifier is in the exclusion set are dropped
silently before the mapping-exhaustiveness check: the pipeline computes
exactly the same result (the same error or the same output) as on the
pre-filtered frame, so an excluded identifier absent from BEA_MAP never
triggers the incomplete-mapping failure and never contributes to any
output region. -/
theorem c4_exclusions_removed_before_check {G : Type} (proj : Nat → Nat → G → G)
    (unionG : List G → G) (states : Frame G) :
    build_bea_regions proj unionG states =
      build_bea_regions proj unionG (excludeTerritories states) := by
  have hcols : (excludeTerritories states).cols = states.cols := rfl
  unfold build_bea_regions
  rw [hcols, excludeTerritories_idem]

/-- Claim C5, counterexample: a group whose geometric union is the empty
geometry `[]` does not make the pipeline fail — `build_bea_regions`
succeeds and emits that region with its empty geometry, so no
GeometryUnionError is raised (no such error exists in the code). -/
theorem c5_counterexample_empty_union_succeeds :
    listUnion ((groupRows (labeledOf exFrameEmptyGeom) "Far West").map Row.geom) = [] ∧
    build_bea_regions idProj listUnion exFrameEmptyGeom =
      .ok { cols := ["bea_region"],
            rows := [{ attrs := [("bea_region", some "Far West")], geom := [] }],
            crs := some 4326 } := by
  constructor
  · rfl
  · decide

/-- Claim C5, amended: the code performs no validity or emptiness check
on union results.  Under the usual success preconditions the pipeline
returns an output for every union function — including one producing
empty or degenerate geometries — and each output geometry is exactly the
reprojected union result, passed through unchecked. -/
theorem c5_no_union_validity_check {G : Type} (proj : Nat → Nat → G → G)
    (unionG : List G → G) (states : Frame G) (c : Nat)
    (hcol : states.cols.contains "STUSPS" = true)
    (hcrs : states.crs = some c)
    (hmap : ∀ r ∈ (excludeTerritories states).rows,
      ((rowStusps r).bind (fun s => mapLookup s BEA_MAP)).isSome = true) :
    ∃ out, build_bea_regions proj unionG states = .ok out ∧
      out.rows.map Row.geom = (regionLabels (labeledOf states)).map
        (fun l => proj c 4326 (unionG ((groupRows (labeledOf states) l).map Row.geom))) := by
  have hmiss := (countMissing_labeledOf_eq_zero states).mpr hmap
  refine ⟨_, build_bea_regions_ok proj unionG states c hcol hcrs hmiss, ?_⟩
  rw [List.map_map]
  rfl

/-- Claim C6: an input that is empty after the exclusion filter (in
particular an originally empty input) is not an error: with the STUSPS
column present and a source reference system declared, the pipeline
returns the empty output collection. -/
theorem c6_empty_after_filter_yields_empty {G : Type} (proj : Nat → Nat → G → G)
    (unionG : List G → G) (states : Frame G) (c : Nat)
    (hcol : states.cols.contains "STUSPS" = true)
    (hcrs : states.crs = some c)
    (hempty : (excludeTerritories states).rows = []) :
    build_bea_regions proj unionG states =
      .ok { cols := ["bea_region"], rows := [], crs := some 4326 } := by
  have hmiss : countMissing (labeledOf states) = 0 := by
    unfold countMissing
    rw [labeledOf_rows, hempty]
    rfl
  rw [build_bea_regions_ok proj unionG states c hcol hcrs hmiss]
  have hlab : regionLabels (labeledOf states) = [] := by
    unfold regionLabels
    rw [labeledOf_rows, hempty]
    rfl
  rw [hlab]
  rfl

/-- Claim C7: the pipeline never mutates its input: running
`build_bea_regions_store` leaves every frame already in the store
unchanged (line 56 copies the filtered frame and line 57 mutates only
that copy), and its result equals the pure `build_bea_regions` of the
input frame. -/
theorem c7_input_frame_unchanged {G : Type} (proj : Nat → Nat → G → G)
    (unionG : List G → G) (σ : List (Frame G)) (i k : Nat)
    (hk : k < σ.length) :
    ((build_bea_regions_store proj unionG σ i).1)[k]? = σ[k]? ∧
    (build_bea_regions_store proj unionG σ i).2 =
      build_bea_regions proj unionG ((σ[i]?).getD emptyFrame) := by
  rw [build_store_eq]
  refine ⟨?_, rfl⟩
  by_cases hcol : ((σ[i]?).getD emptyFrame).cols.contains "STUSPS" = true
  · rw [if_pos hcol, List.getElem?_append, if_pos hk]
  · rw [if_neg hcol]

/-- Claim C8: when the input frame has no STUSPS column,
`build_bea_regions` fails immediately with the KeyError of line 54 — for
every content of rows, reference system, mapping, union and projection
function, before any filtering, mapping or union can have an effect. -/
theorem c8_missing_stusps_keyerror {G : Type} (proj : Nat → Nat → G → G)
    (unionG : List G → G) (states : Frame G)
    (hcol : states.cols.contains "STUSPS" = false) :
    build_bea_regions proj unionG states =
      .error (.keyError
        "Expected STUSPS column in states layer (two-letter postal codes).") := by
  unfold build_bea_regions
  rw [if_neg (fun h => Bool.noConfusion (hcol ▸ h : false = true))]

/-- Claim C9: every successful output frame carries exactly the group
label column bea_region and the geometry: its column list is
`["bea_region"]` and every output row's attributes consist of the single
bea_region entry, so every other input attribute (including the
first-representative collapsed values) is dropped. -/
theorem c9_output_only_label_and_geometry {G : Type} (proj : Nat → Nat → G → G)
    (unionG : List G → G) (states : Frame G) (out : Frame G)
    (h : build_bea_regions proj unionG states = .ok out) :
    out.cols = ["bea_region"] ∧
    ∀ r ∈ out.rows, r.attrs.map Prod.fst = ["bea_region"] := by
  unfold build_bea_regions at h
  by_cases hcol : states.cols.contains "STUSPS" = true
  · rw [if_pos hcol] at h
    simp only [labeledOf_eq] at h
    by_cases hmiss : countMissing (labeledOf states) ≠ 0
    · rw [if_pos hmiss] at h
      exact absurd h (by simp)
    · rw [if_neg hmiss] at h
      cases htc : toCrs proj 4326 (dissolveByRegion unionG (labeledOf states)) with
      | error e =>
        rw [htc] at h
        exact absurd h (by simp)
      | ok bea =>
        rw [htc] at h
        simp only [Except.ok.injEq] at h
        subst h
        refine ⟨rfl, ?_⟩
        intro r hr
        simp only [selectRegionGeometry, List.mem_map] at hr
        obtain ⟨r0, hr0, rfl⟩ := hr
        rfl
  · rw [if_neg hcol] at h
    exact absurd h (by simp)

lemma keepRow_iff {G : Type} (r : Row G) {s : String} (hs : rowStusps r = some s) :
    keepRow r = true ↔ s ∉ TERRITORIES := by
  unfold keepRow
  rw [hs]
  show (! TERRITORIES.contains s) = true ↔ s ∉ TERRITORIES
  constructor
  · intro h hmem
    simp [hmem] at h
  · intro h
    simp [h]

/-- Claim C10: the fixed mapping BEA_MAP assigns its 51 postal codes
(all distinct: the 50 states plus DC) to exactly 8 distinct region
labels, the fixed exclusion set TERRITORIES is disjoint from its keys,
and consequently every input frame whose rows cover all 51 mapped codes
and whose identifiers all lie among the mapped codes and the territories
produces exactly 8 output regions. -/
theorem c10_fixed_mapping_eight_regions :
    (BEA_MAP.map Prod.fst).length = 51 ∧
    (BEA_MAP.map Prod.fst).Nodup ∧
    ((BEA_MAP.map Prod.snd).dedup).length = 8 ∧
    (∀ t ∈ TERRITORIES, t ∉ BEA_MAP.map Prod.fst) ∧
    (∀ (G : Type) (proj : Nat → Nat → G → G) (unionG : List G → G)
      (states : Frame G) (c : Nat),
      states.cols.contains "STUSPS" = true →
      states.crs = some c →
      (∀ r ∈ states.rows, ∃ s ∈ BEA_MAP.map Prod.fst ++ TERRITORIES,
        rowStusps r = some s) →
      (∀ k ∈ BEA_MAP.map Prod.fst, ∃ r ∈ states.rows, rowStusps r = some k) →
      ∃ out, build_bea_regions proj unionG states = .ok out ∧
        out.rows.length = 8) := by
  refine ⟨by decide, by decide, by decide, by decide, ?_⟩
  intro G proj unionG states c hcol hcrs hall hcover
  have hdisj : ∀ t ∈ TERRITORIES, t ∉ BEA_MAP.map Prod.fst := by decide
  have hmap : ∀ r ∈ (excludeTerritories states).rows,
      ((rowStusps r).bind (fun s => mapLookup s BEA_MAP)).isSome = true := by
    intro r hr
    have hr2 : r ∈ states.rows ∧ keepRow r = true := List.mem_filter.mp hr
    obtain ⟨s, hsmem, hs⟩ := hall r hr2.1
    rw [hs]
    simp only [Option.some_bind]
    rw [mapLookup_isSome_iff]
    rcases List.mem_append.mp hsmem with h | h
    · exact h
    · exact absurd h (fun hmem => ((keepRow_iff r hs).mp hr2.2) hmem)
  have hmiss := (countMissing_labeledOf_eq_zero states).mpr hmap
  refine ⟨_, build_bea_regions_ok proj unionG states c hcol hcrs hmiss, ?_⟩
  rw [List.length_map, length_regionLabels, filterMap_rowRegion_labeledOf]
  have hfin : (classifiedLabels states).toFinset = (BEA_MAP.map Prod.snd).toFinset := by
    apply Finset.ext
    intro v
    rw [List.mem_toFinset, List.mem_toFinset]
    constructor
    · intro hv
      obtain ⟨r, hr, hbind⟩ := List.mem_filterMap.mp hv
      obtain ⟨s, hs, hlook⟩ := Option.bind_eq_some.mp hbind
      exact mapLookup_mem_values hlook
    · intro hv
      obtain ⟨k, hk, hlook⟩ := values_mapLookup (by decide) hv
      obtain ⟨r, hr, hstu⟩ := hcover k hk
      have hkeep : keepRow r = true :=
        (keepRow_iff r hstu).mpr (fun hmem => hdisj k hmem hk)
      refine List.mem_filterMap.mpr ⟨r, List.mem_filter.mpr ⟨hr, hkeep⟩, ?_⟩
      rw [hstu]
      exact hlook
  have h1 : (classifiedLabels states).dedup.length =
      (classifiedLabels states).toFinset.card := (List.card_toFinset _).symm
  rw [h1, hfin, List.card_toFinset]
  decide

/-- Witness for C1 at the three-state example frame. -/
theorem c1_witness :
    exFrame.cols.contains "STUSPS" = true ∧
    exFrame.crs = some 4269 ∧
    (∃ out, build_bea_regions idProj listUnion exFrame = .ok out ∧
      (out.rows.filterMap rowRegion).Nodup ∧
      (∀ l, l ∈ out.rows.filterMap rowRegion ↔ l ∈ classifiedLabels exFrame) ∧
      out.rows.length = (classifiedLabels exFrame).dedup.length) :=
  ⟨by decide, by decide,
    c1_one_region_per_label idProj listUnion exFrame 4269 (by decide) (by decide)
      (by decide)⟩

/-- Witness for C2 at the example frame extended with an unmapped code. -/
theorem c2_witness :
    exFrameUnmapped.cols.contains "STUSPS" = true ∧
    (∃ r ∈ (excludeTerritories exFrameUnmapped).rows,
      (rowStusps r).bind (fun s => mapLookup s BEA_MAP) = none) ∧
    build_bea_regions idProj listUnion exFrameUnmapped =
      .error (.valueError (((excludeTerritories exFrameUnmapped).rows.filter
        (fun r => ((rowStusps r).bind (fun s => mapLookup s BEA_MAP)).isNone)).map
          rowStusps)) :=
  ⟨by decide, by decide,
    c2_mapping_incomplete_all_listed idProj listUnion exFrameUnmapped (by decide)
      (by decide)⟩

/-- Witness for C3 at the three-state example frame. -/
theorem c3_witness :
    ∃ out, build_bea_regions idProj listUnion exFrame = .ok out ∧
      out.crs = some 4326 ∧
      ∀ r ∈ out.rows, ∃ l, rowRegion r = some l ∧
        r.geom = idProj 4269 4326
          (listUnion ((groupRows (labeledOf exFrame) l).map Row.geom)) :=
  c3_union_native_then_reproject idProj listUnion exFrame 4269 (by decide) (by decide)
    (by decide)

/-- Witness for the amended C5 at the empty-geometry frame. -/
theorem c5_witness :
    ∃ out, build_bea_regions idProj listUnion exFrameEmptyGeom = .ok out ∧
      out.rows.map Row.geom = (regionLabels (labeledOf exFrameEmptyGeom)).map
        (fun l => idProj 5070 4326
          (listUnion ((groupRows (labeledOf exFrameEmptyGeom) l).map Row.geom))) :=
  c5_no_union_validity_check idProj listUnion exFrameEmptyGeom 5070 (by decide)
    (by decide) (by decide)

/-- Witness for C6 at the territory-only frame. -/
theorem c6_witness :
    (excludeTerritories exFrameTerritoryOnly).rows = [] ∧
    build_bea_regions idProj listUnion exFrameTerritoryOnly =
      .ok { cols := ["bea_region"], rows := [], crs := some 4326 } :=
  ⟨by decide,
    c6_empty_after_filter_yields_empty idProj listUnion exFrameTerritoryOnly 4269
      (by decide) (by decide) (by decide)⟩

/-- Witness for C7 on a one-frame store. -/
theorem c7_witness :
    ((build_bea_regions_store idProj listUnion [exFrame] 0).1)[0]? = [exFrame][0]? ∧
    (build_bea_regions_store idProj listUnion [exFrame] 0).2 =
      build_bea_regions idProj listUnion (([exFrame][0]?).getD emptyFrame) :=
  c7_input_frame_unchanged idProj listUnion [exFrame] 0 0 (by decide)

/-- Witness for C8 at a frame lacking the STUSPS column. -/
theorem c8_witness :
    build_bea_regions idProj listUnion exFrameNoStusps =
      .error (.keyError
        "Expected STUSPS column in states layer (two-letter postal codes).") :=
  c8_missing_stusps_keyerror idProj listUnion exFrameNoStusps (by decide)

/-- Witness for C9 at the three-state example frame and its output. -/
theorem c9_witness :
    exOut.cols = ["bea_region"] ∧
    ∀ r ∈ exOut.rows, r.attrs.map Prod.fst = ["bea_region"] :=
  c9_output_only_label_and_geometry idProj listUnion exFrame exOut (by decide)

/-- Witness for C10 at the frame listing all 51 mapped codes. -/
theorem c10_witness :
    ∃ out, build_bea_regions idProj listUnion allStatesFrame = .ok out ∧
      out.rows.length = 8 :=
  c10_fixed_mapping_eight_regions.2.2.2.2 (List Nat) idProj listUnion allStatesFrame
    4269 (by decide) (by decide) (by decide) (by decide)
